import Mathlib

/-!
Verification of the content resolution subsystem of the kwezi backend
(`src/server.py`): the sentence variety sampler (`get_sentences`, no-filter
branch), the dual-audio locator resolver and CDN URL builder
(`get_word_audio_by_language`), and the words listing (`get_words`).

The Python code is shallowly embedded: Mongo documents become structures with
`Option` fields (absent key = `none`), Python truthiness of strings is made
explicit, the random shuffles of the sampler are injected as an `orders`
function giving the pool order produced by the k-th shuffle call, and a Python
exception escaping a computation is modelled as `none` / `Except.error`.
-/

namespace Kwezi

/-! ### Sentence variety sampler

`get_sentences` (no-filter branch) loads the whole pool, shuffles it, takes
the first `limit` records, computes the list of first whitespace-delimited
tokens of the `french` fields, counts the distinct ones, and reshuffles while
`unique_verbs < limit * 0.5 and attempts < 5` (with `attempts` starting at 0
and incremented per reshuffle).  The subscript `.split()[0]` raises
`IndexError` when the `french` field has no token; that is modelled by
`Option`.  The comparison `unique_verbs < limit * 0.5` is exact integer versus
half-integer comparison in Python, modelled as `2 * u < limit`. -/

structure SentenceRec where
  french : String
deriving DecidableEq

/-- Models `s.get('french', '').split()[0]`: the first whitespace-delimited
token of the french field, `none` when the field is empty or whitespace-only
(in Python that subscript raises `IndexError`). -/
def leadTok (s : String) : Option String :=
  match s.data.dropWhile Char.isWhitespace with
  | [] => none
  | l => some ⟨l.takeWhile (fun c => !c.isWhitespace)⟩

/-- Models the list comprehension
`[s.get('french', '').split()[0] for s in sentences]`: the list of lead
tokens, `none` when some record has none (a raised `IndexError`). -/
def leadToks : List SentenceRec → Option (List String)
  | [] => some []
  | s :: l =>
    match leadTok s.french, leadToks l with
    | some t, some ts => some (t :: ts)
    | _, _ => none

/-- Models `len(set([s.get('french','').split()[0] for s in sentences]))`:
the number of distinct lead tokens, `none` when some record has no token. -/
def uniqueVerbs (sel : List SentenceRec) : Option Nat :=
  (leadToks sel).map (fun l => l.dedup.length)

/-- The candidate selection after the k-th shuffle: `all_sentences[:limit]`
where `orders k` is the pool order produced by the k-th `random.shuffle`. -/
def selAt (orders : Nat → List SentenceRec) (limit k : Nat) : List SentenceRec :=
  (orders k).take limit

/-- The retry loop of `get_sentences`: `fuel` is `5 - attempts`, `idx` counts
the shuffle calls already made before the current selection.  Returns the
final value of `sentences` (or `none` for a raised `IndexError`) together
with the total number of shuffle calls performed. -/
def sampleLoop (orders : Nat → List SentenceRec) (limit : Nat) :
    Nat → Nat → Option (List SentenceRec) × Nat
  | 0, idx =>
    match uniqueVerbs (selAt orders limit idx) with
    | none => (none, idx + 1)
    | some _ => (some (selAt orders limit idx), idx + 1)
  | fuel + 1, idx =>
    match uniqueVerbs (selAt orders limit idx) with
    | none => (none, idx + 1)
    | some u =>
      if 2 * u < limit then sampleLoop orders limit fuel (idx + 1)
      else (some (selAt orders limit idx), idx + 1)

/-- The no-filter branch of `get_sentences`: one initial shuffle, then the
`while unique_verbs < limit * 0.5 and attempts < 5` loop. -/
def get_sentences_mix (orders : Nat → List SentenceRec) (limit : Nat) :
    Option (List SentenceRec) × Nat :=
  sampleLoop orders limit 5 0

/-! ### Dual-audio locator resolver and CDN URL builder

`get_word_audio_by_language` validates the language, looks the word up (by
`_id` when the identifier parses as an `ObjectId`, otherwise by the string
`id` field), requires the `dual_audio_system` flag, resolves the audio path
through the three-shape `or` chain, and builds the Cloudflare R2 redirect
URL.  Every `HTTPException` raised inside the `try` block is caught by the
trailing `except Exception` and re-raised with status 500. -/

/-- A Mongo word document; `Option` fields model possibly-absent keys.
`oid` is the canonical lowercase hex of `_id`; `id` is the external string
identifier field; `sectionField` models the `section` key. -/
structure WordDoc where
  oid : String
  id : Option String := none
  french : String := ""
  category : Option String := none
  sectionField : Option String := none
  dual_audio_system : Bool := false
  audio_shimaore : Option String := none
  shimoare_audio_filename : Option String := none
  audio_filename_shimaore : Option String := none
  audio_kibouchi : Option String := none
  kibouchi_audio_filename : Option String := none
  audio_filename_kibouchi : Option String := none
  shimoare_has_audio : Bool := false
  kibouchi_has_audio : Bool := false
deriving DecidableEq

/-- Python truthiness of a possibly-absent string value: `None` and `""` are
falsy, everything else is truthy. -/
def truthy : Option String → Bool
  | none => false
  | some s => !(s = "")

/-- Python `a or b` on possibly-absent string values: `a` when truthy,
otherwise `b` (which may itself be falsy). -/
def pyOr (a b : Option String) : Option String :=
  if truthy a then a else b

/-- The three-shape resolution chain of `get_word_audio_by_language`:
`audio_shimaore or shimoare_audio_filename or audio_filename_shimaore`
(and the `kibouchi` analogue for the other language). -/
def resolvePath (doc : WordDoc) (lang : String) : Option String :=
  if lang = "shimaore" then
    pyOr doc.audio_shimaore (pyOr doc.shimoare_audio_filename doc.audio_filename_shimaore)
  else
    pyOr doc.audio_kibouchi (pyOr doc.kibouchi_audio_filename doc.audio_filename_kibouchi)

/-- `has_audio = word_doc.get("<lang>_has_audio", False) or bool(audio_path)`;
computed by the code but never read afterwards. -/
def hasAudio (doc : WordDoc) (lang : String) : Bool :=
  if lang = "shimaore" then doc.shimoare_has_audio || truthy (resolvePath doc lang)
  else doc.kibouchi_has_audio || truthy (resolvePath doc lang)

/-- `ObjectId(word_id)` succeeds exactly on 24-character hex strings. -/
def isHexDigit (c : Char) : Bool :=
  c.isDigit || (97 ≤ c.toNat && c.toNat ≤ 102) || (65 ≤ c.toNat && c.toNat ≤ 70)

def isValidObjectId (s : String) : Bool :=
  s.length = 24 && s.data.all isHexDigit

/-- Lowercase the hex identifier (the canonical form stored in `oid`). -/
def lowerHex (s : String) : String :=
  ⟨s.data.map (fun c => if 65 ≤ c.toNat && c.toNat ≤ 90 then Char.ofNat (c.toNat + 32) else c)⟩

/-- The word lookup of `get_word_audio_by_language`: `find_one` by `_id` when
`ObjectId(word_id)` parses, and `find_one` by the string `id` field ONLY when
the `ObjectId` conversion raises (the inner `except` branch). -/
def lookupWord (store : List WordDoc) (wid : String) : Option WordDoc :=
  if isValidObjectId wid then store.find? (fun d => d.oid == lowerHex wid)
  else store.find? (fun d => d.id == some wid)

/-- UTF-8 bytes of a character, as naturals. -/
def utf8Bytes (c : Char) : List Nat :=
  if c.toNat < 128 then [c.toNat]
  else if c.toNat < 2048 then [192 + c.toNat / 64, 128 + c.toNat % 64]
  else if c.toNat < 65536 then
    [224 + c.toNat / 4096, 128 + (c.toNat / 64) % 64, 128 + c.toNat % 64]
  else
    [240 + c.toNat / 262144, 128 + (c.toNat / 4096) % 64, 128 + (c.toNat / 64) % 64,
      128 + c.toNat % 64]

/-- Bytes left unescaped by `urllib.parse.quote` with its default
`safe = "/"`: ASCII letters, digits, and `_ . - ~ /`. -/
def isSafeByte (b : Nat) : Bool :=
  (65 ≤ b && b ≤ 90) || (97 ≤ b && b ≤ 122) || (48 ≤ b && b ≤ 57) ||
    b = 45 || b = 46 || b = 95 || b = 126 || b = 47

/-- Uppercase hex digit, as used by `urllib.parse.quote` (`%%%02X`). -/
def hexDigitChar (n : Nat) : Char :=
  Char.ofNat (if n < 10 then 48 + n else 55 + n)

/-- The characters `urllib.parse.quote` emits for one byte. -/
def quoteByteChars (b : Nat) : List Char :=
  if isSafeByte b then [Char.ofNat b]
  else ['%', hexDigitChar (b / 16), hexDigitChar (b % 16)]

/-- `urllib.parse.quote(s)` with the default `safe="/"`: percent-encode the
UTF-8 bytes of `s`, keeping unreserved characters and slashes. -/
def pyQuote (s : String) : String :=
  ⟨(s.data.flatMap utf8Bytes).flatMap quoteByteChars⟩

/-- Default of the `R2_PUBLIC_URL` environment variable. -/
def R2_PUBLIC_URL : String :=
  "https://pub-57ccc97df699405084a85ab3bb4ef546.r2.dev"

/-- `audio_category or word_doc.get("section") or word_doc.get("category",
"famille")` in the branch where the path has no slash (`audio_category` is
`None` there). -/
def wordCategory (doc : WordDoc) : String :=
  match doc.sectionField with
  | some s => if s = "" then doc.category.getD "famille" else s
  | none => doc.category.getD "famille"

/-- The R2 URL construction: a path that contains a `/` (current shape,
category embedded) is interpolated verbatim; otherwise the category is
resolved from the document and only then is the filename percent-encoded. -/
def buildAudioUrl (base : String) (path : String) (doc : WordDoc) : String :=
  if path.data.contains '/' then base ++ "/" ++ path
  else base ++ "/" ++ wordCategory doc ++ "/" ++ pyQuote path

/-- Machine-checkable failure reasons of the audio endpoint. -/
inductive Reason where
  | invalidVariant
  | unknownEntry (wid : String)
  | noDualSystem
  | audioNotFound (lang : String)
deriving DecidableEq

/-- An `HTTPException(status_code, detail)` raised inside the `try` block. -/
structure HTTPError where
  status : Nat
  reason : Reason
deriving DecidableEq

/-- A response of the audio endpoint.  `wrappedFailure 500 s r` models the
catch-all `except Exception as e: raise HTTPException(500, str(e))` applied
to an `HTTPException(s, ...)`: the original status survives only inside the
detail string. -/
inductive Resp where
  | redirect (status : Nat) (url : String)
  | failure (status : Nat) (reason : Reason)
  | wrappedFailure (status : Nat) (origStatus : Nat) (reason : Reason)
deriving DecidableEq

/-- The body of the `try` block of `get_word_audio_by_language`: lookup,
dual-system gate, three-shape resolution, URL construction. -/
def audioCore (store : List WordDoc) (wid lang : String) : Except HTTPError Resp :=
  match lookupWord store wid with
  | none => Except.error ⟨404, Reason.unknownEntry wid⟩
  | some doc =>
    if !doc.dual_audio_system then Except.error ⟨400, Reason.noDualSystem⟩
    else
      let p := resolvePath doc lang
      if truthy p then
        Except.ok (Resp.redirect 307 (buildAudioUrl R2_PUBLIC_URL (p.getD "") doc))
      else Except.error ⟨404, Reason.audioNotFound lang⟩

/-- The full endpoint: the language check happens before the `try` block (so
its 400 is genuine); every `HTTPError` escaping from `audioCore` is remapped
to status 500 by the catch-all handler. -/
def get_word_audio_by_language (store : List WordDoc) (wid lang : String) : Resp :=
  if !(lang = "shimaore" || lang = "kibouchi") then
    Resp.failure 400 Reason.invalidVariant
  else
    match audioCore store wid lang with
    | Except.ok r => r
    | Except.error e => Resp.wrappedFailure 500 e.status e.reason

/-! ### Words listing

The first registered handler for `GET /api/words` (Starlette matches routes
in registration order, so it is the live one) builds `query = {}` unless
`category` is truthy — so the empty string disables the filter — and returns
`words_collection.find(query).sort("french", 1)`: the full match set, sorted
ascending on the `french` field (BSON binary string order, which on UTF-8
agrees with code-point lexicographic order), with no limit or skip. -/

def frenchLe (a b : WordDoc) : Bool :=
  decide (a.french ≤ b.french)

def get_words (store : List WordDoc) (category : Option String) : List WordDoc :=
  let q : WordDoc → Bool :=
    match category with
    | none => fun _ => true
    | some c => if c = "" then fun _ => true else fun d => d.category == some c
  (store.filter q).mergeSort frenchLe

/-! ### Concrete records used by counterexamples and witnesses -/

/-- Entry carrying both a legacy-dual filename and a mid-generation filename
for shimaore, and no current-shape path. -/
def doc1 : WordDoc :=
  { oid := "aaaaaaaaaaaaaaaaaaaaaaaa", dual_audio_system := true,
    shimoare_audio_filename := some "legacy.m4a",
    audio_filename_shimaore := some "mid.m4a", category := some "famille" }

/-- Another entry with both filename shapes, for the C1 witness. -/
def docW : WordDoc :=
  { oid := "ffffffffffffffffffffffff", dual_audio_system := true,
    shimoare_audio_filename := some "w.m4a",
    audio_filename_shimaore := some "z.m4a", category := some "nature" }

/-- Entry whose only audio shape is a legacy-dual filename with its
`shimoare_has_audio` flag explicitly false. -/
def doc2 : WordDoc :=
  { oid := "bbbbbbbbbbbbbbbbbbbbbbbb", dual_audio_system := true,
    shimoare_audio_filename := some "tata.m4a", shimoare_has_audio := false,
    category := some "famille" }

/-- Entry with a current-shape path whose filename contains a space. -/
def doc3 : WordDoc :=
  { oid := "abcdefabcdefabcdefabcdef", dual_audio_system := true,
    audio_shimaore := some "famille/mon fichier.m4a" }

/-- Entry without the dual-audio flag, but with audio fields present. -/
def docNoDual : WordDoc :=
  { oid := "cccccccccccccccccccccccc",
    audio_shimaore := some "famille/x.m4a", shimoare_has_audio := true }

/-- Dual-system entry with no audio field at all. -/
def docDualNoAudio : WordDoc :=
  { oid := "eeeeeeeeeeeeeeeeeeeeeeee", dual_audio_system := true }

/-- Entry whose external string `id` looks like a valid ObjectId, stored
under a different native `_id`. -/
def docY : WordDoc :=
  { oid := "dddddddddddddddddddddddd", id := some "aaaaaaaaaaaaaaaaaaaaaaaa",
    dual_audio_system := true, audio_shimaore := some "famille/y.m4a" }

/-- Four sentences with four distinct lead tokens. -/
def pool4 : List SentenceRec :=
  [⟨"aller vite"⟩, ⟨"boire du lait"⟩, ⟨"courir loin"⟩, ⟨"danser bien"⟩]

/-- A word document for the listing counterexample. -/
def w1 : WordDoc :=
  { oid := "111111111111111111111111", french := "zebre", category := some "colors" }

def w2 : WordDoc :=
  { oid := "222222222222222222222222", french := "avion", category := some "colors" }

def w3 : WordDoc :=
  { oid := "333333333333333333333333", french := "chat", category := some "animaux" }

/-! ### Helper lemmas about the sampler loop -/

/-- Full characterization of the retry loop: the shuffle count is between
`idx + 1` and `idx + fuel + 1`; every selection before the last one was
rejected by the `2 * u < limit` test; and a returned selection is the last
one computed, which was either accepted by the test or produced by the final
(fuel-exhausting) attempt. -/
theorem sampleLoop_spec (orders : Nat → List SentenceRec) (limit : Nat) :
    ∀ fuel idx,
      (idx + 1 ≤ (sampleLoop orders limit fuel idx).2 ∧
        (sampleLoop orders limit fuel idx).2 ≤ idx + fuel + 1) ∧
      (∀ k, idx ≤ k → k + 1 < (sampleLoop orders limit fuel idx).2 →
        ∃ u, uniqueVerbs (selAt orders limit k) = some u ∧ 2 * u < limit) ∧
      (∀ sel, (sampleLoop orders limit fuel idx).1 = some sel →
        sel = selAt orders limit ((sampleLoop orders limit fuel idx).2 - 1) ∧
        ∃ u, uniqueVerbs sel = some u ∧
          (2 * u < limit → (sampleLoop orders limit fuel idx).2 = idx + fuel + 1)) := by
  intro fuel
  induction fuel with
  | zero =>
    intro idx
    cases h : uniqueVerbs (selAt orders limit idx) with
    | none =>
      have hstep : sampleLoop orders limit 0 idx = (none, idx + 1) := by
        simp only [sampleLoop, h]
      rw [hstep]
      exact ⟨⟨Nat.le_refl _, Nat.le_refl _⟩,
        fun k hk hk2 => absurd hk2 (by omega),
        fun sel hsel => by simp at hsel⟩
    | some u =>
      have hstep : sampleLoop orders limit 0 idx
          = (some (selAt orders limit idx), idx + 1) := by
        simp only [sampleLoop, h]
      rw [hstep]
      refine ⟨⟨Nat.le_refl _, Nat.le_refl _⟩,
        fun k hk hk2 => absurd hk2 (by omega),
        fun sel hsel => ?_⟩
      obtain rfl : selAt orders limit idx = sel := by simpa using hsel
      exact ⟨by simp, u, h, fun _ => rfl⟩
  | succ f ih =>
    intro idx
    cases h : uniqueVerbs (selAt orders limit idx) with
    | none =>
      have hstep : sampleLoop orders limit (f + 1) idx = (none, idx + 1) := by
        simp only [sampleLoop, h]
      rw [hstep]
      exact ⟨⟨Nat.le_refl _, by omega⟩,
        fun k hk hk2 => absurd hk2 (by omega),
        fun sel hsel => by simp at hsel⟩
    | some u =>
      by_cases hc : 2 * u < limit
      · have hstep : sampleLoop orders limit (f + 1) idx = sampleLoop orders limit f (idx + 1) := by
          simp only [sampleLoop, h, if_pos hc]
        rw [hstep]
        obtain ⟨⟨hb1, hb2⟩, hk, hr⟩ := ih (idx + 1)
        refine ⟨⟨by omega, by omega⟩, fun k hk1 hk2 => ?_, fun sel hsel => ?_⟩
        · rcases Nat.eq_or_lt_of_le hk1 with rfl | hk1'
          · exact ⟨u, h, hc⟩
          · exact hk k hk1' hk2
        · obtain ⟨he, u', hu', hlast⟩ := hr sel hsel
          exact ⟨he, u', hu', fun hlt => by rw [hlast hlt]; omega⟩
      · have hstep : sampleLoop orders limit (f + 1) idx
            = (some (selAt orders limit idx), idx + 1) := by
          simp only [sampleLoop, h, if_neg hc]
        rw [hstep]
        refine ⟨⟨Nat.le_refl _, by omega⟩,
          fun k hk hk2 => absurd hk2 (by omega),
          fun sel hsel => ?_⟩
        obtain rfl : selAt orders limit idx = sel := by simpa using hsel
        exact ⟨by simp, u, h, fun hlt => absurd hlt hc⟩

theorem selAt_subset (orders : Nat → List SentenceRec) (limit k : Nat) :
    selAt orders limit k ⊆ orders k :=
  List.take_subset _ _

theorem leadToks_isSome : ∀ sel : List SentenceRec,
    (∀ s ∈ sel, (leadTok s.french).isSome) → (leadToks sel).isSome := by
  intro sel
  induction sel with
  | nil => intro _; simp [leadToks]
  | cons a l ih =>
    intro h
    obtain ⟨b, hb⟩ := Option.isSome_iff_exists.mp (h a (List.mem_cons_self a l))
    obtain ⟨bs, hbs⟩ :=
      Option.isSome_iff_exists.mp (ih fun s hs => h s (List.mem_cons_of_mem a hs))
    simp [leadToks, hb, hbs]

theorem uniqueVerbs_isSome (sel : List SentenceRec)
    (h : ∀ s ∈ sel, (leadTok s.french).isSome) : (uniqueVerbs sel).isSome := by
  obtain ⟨l, hl⟩ := Option.isSome_iff_exists.mp (leadToks_isSome sel h)
  simp [uniqueVerbs, hl]

/-- When every record reachable by any shuffle has a lead token, no attempt
of the loop can raise. -/
theorem sampleLoop_isSome (orders : Nat → List SentenceRec) (limit : Nat)
    (h : ∀ i s, s ∈ orders i → (leadTok s.french).isSome) :
    ∀ fuel idx, ((sampleLoop orders limit fuel idx).1).isSome := by
  intro fuel
  induction fuel with
  | zero =>
    intro idx
    obtain ⟨u, hu⟩ := Option.isSome_iff_exists.mp
      (uniqueVerbs_isSome (selAt orders limit idx)
        (fun s hs => h idx s (selAt_subset orders limit idx hs)))
    simp [sampleLoop, hu]
  | succ f ih =>
    intro idx
    obtain ⟨u, hu⟩ := Option.isSome_iff_exists.mp
      (uniqueVerbs_isSome (selAt orders limit idx)
        (fun s hs => h idx s (selAt_subset orders limit idx hs)))
    by_cases hc : 2 * u < limit
    · simpa [sampleLoop, hu, hc] using ih (idx + 1)
    · simp [sampleLoop, hu, hc]

theorem utf8Bytes_lt_256 (c : Char) : ∀ b ∈ utf8Bytes c, b < 256 := by
  intro b hb
  have hv : c.toNat < 55296 ∨ (57343 < c.toNat ∧ c.toNat < 1114112) := c.valid
  unfold utf8Bytes at hb
  split_ifs at hb <;> simp at hb <;> omega

set_option maxRecDepth 2048 in
theorem quoteByteChars_ascii :
    ∀ b < 256, ∀ c ∈ quoteByteChars b, c.toNat < 128 ∧ c ≠ ' ' := by decide

/-- Every character of a percent-encoded filename is plain ASCII and in
particular not a space: spaces and accented characters never survive
`pyQuote` unencoded. -/
theorem pyQuote_chars (s : String) :
    ∀ c ∈ (pyQuote s).data, c.toNat < 128 ∧ c ≠ ' ' := by
  intro c hc
  have hdata : (pyQuote s).data = (s.data.flatMap utf8Bytes).flatMap quoteByteChars := rfl
  rw [hdata] at hc
  obtain ⟨b, hb, hcb⟩ := List.mem_flatMap.mp hc
  obtain ⟨ch, _, hbch⟩ := List.mem_flatMap.mp hb
  exact quoteByteChars_ascii b (utf8Bytes_lt_256 ch b hbch) c hcb

/-! ### Claim C1 -/

/-- Claim C1 as stated is false: `doc1` carries both a mid-generation
filename (`audio_filename_shimaore = "mid.m4a"`) and a legacy-dual filename
(`shimoare_audio_filename = "legacy.m4a"`), and the resolver resolves the
legacy-dual value, not the mid-generation one. -/
theorem c1_mid_priority_counterexample :
    resolvePath doc1 "shimaore" = some "legacy.m4a" ∧
    doc1.audio_filename_shimaore = some "mid.m4a" ∧
    "legacy.m4a" ≠ "mid.m4a" := by decide

/-- Claim C1 (amended): the resolver checks current-shape first, then the
legacy-dual filename, then the mid-generation filename; in particular, when
no current-shape value is truthy and a legacy-dual filename is present, the
legacy-dual value wins regardless of any mid-generation field. -/
theorem c1_legacy_beats_mid (doc : WordDoc) (fn : String)
    (h1 : truthy doc.audio_shimaore = false)
    (h2 : doc.shimoare_audio_filename = some fn) (h3 : fn ≠ "") :
    resolvePath doc "shimaore" = some fn := by
  have h4 : truthy (some fn) = true := by simp [truthy, h3]
  simp [resolvePath, pyOr, h1, h2, h4]

/-- Witness for C1 at the concrete entry `docW`. -/
theorem c1_legacy_beats_mid_witness :
    resolvePath docW "shimaore" = some "w.m4a" :=
  c1_legacy_beats_mid docW "w.m4a" (by decide) (by decide) (by decide)

/-! ### Claim C3 -/

/-- Claim C3 as stated is false: `doc2` has only a legacy-dual filename with
`shimoare_has_audio` explicitly false and no higher-priority shape, yet the
endpoint resolves the asset and redirects instead of returning a not-found
outcome. -/
theorem c3_false_flag_counterexample :
    get_word_audio_by_language [doc2] "bbbbbbbbbbbbbbbbbbbbbbbb" "shimaore" =
      Resp.redirect 307 (R2_PUBLIC_URL ++ "/famille/tata.m4a") := by decide

/-- Claim C3 (amended): the per-language boolean flag is ignored (the code
computes `has_audio` but never reads it); a truthy legacy-dual filename
resolves and redirects even when its flag is explicitly false. -/
theorem c3_false_flag_still_resolves (doc : WordDoc) (fn : String)
    (hd : doc.dual_audio_system = true)
    (h1 : doc.audio_shimaore = none)
    (_h2 : doc.audio_filename_shimaore = none)
    (h3 : doc.shimoare_audio_filename = some fn)
    (h4 : fn ≠ "")
    (_h5 : doc.shimoare_has_audio = false) :
    resolvePath doc "shimaore" = some fn ∧
    ∀ store wid, lookupWord store wid = some doc →
      audioCore store wid "shimaore" =
        Except.ok (Resp.redirect 307 (buildAudioUrl R2_PUBLIC_URL fn doc)) := by
  have hp : resolvePath doc "shimaore" = some fn := by
    simp [resolvePath, pyOr, truthy, h1, h3, h4]
  refine ⟨hp, fun store wid hl => ?_⟩
  simp [audioCore, hl, hd, hp, truthy, h4]

/-- Witness for C3 at the concrete entry `doc2`. -/
theorem c3_false_flag_still_resolves_witness :
    audioCore [doc2] "bbbbbbbbbbbbbbbbbbbbbbbb" "shimaore" =
      Except.ok (Resp.redirect 307 (buildAudioUrl R2_PUBLIC_URL "tata.m4a" doc2)) :=
  (c3_false_flag_still_resolves doc2 "tata.m4a" rfl rfl rfl rfl (by decide) rfl).2
    [doc2] "bbbbbbbbbbbbbbbbbbbbbbbb" (by decide)

/-! ### Claim C7 -/

/-- Claim C7: when the located entry's `dual_audio_system` flag is absent or
false (both modelled by `false`, the default of `get(..., False)`), the core
fails with the dedicated no-dual-system error regardless of which
per-language audio fields are present, before any per-language lookup. -/
theorem c7_no_dual_fail_fast (store : List WordDoc) (wid lang : String)
    (doc : WordDoc) (hl : lookupWord store wid = some doc)
    (hd : doc.dual_audio_system = false) :
    audioCore store wid lang = Except.error ⟨400, Reason.noDualSystem⟩ := by
  simp [audioCore, hl, hd]

/-- Witness for C7 at the concrete entry `docNoDual`, which has audio fields
present but no dual-system flag. -/
theorem c7_no_dual_fail_fast_witness :
    audioCore [docNoDual] "cccccccccccccccccccccccc" "kibouchi" =
      Except.error ⟨400, Reason.noDualSystem⟩ :=
  c7_no_dual_fail_fast [docNoDual] "cccccccccccccccccccccccc" "kibouchi" docNoDual
    (by decide) rfl

/-! ### Claim C9 -/

/-- Claim C9 as stated is false: for the identifier
`"aaaaaaaaaaaaaaaaaaaaaaaa"` (a syntactically valid ObjectId), the store
holds an entry whose external string `id` equals it, yet the endpoint
declares the entry unknown: the string interpretation is never tried once
the identifier parses as a native ObjectId. -/
theorem c9_fallback_counterexample :
    get_word_audio_by_language [docY] "aaaaaaaaaaaaaaaaaaaaaaaa" "shimaore" =
      Resp.wrappedFailure 500 404 (Reason.unknownEntry "aaaaaaaaaaaaaaaaaaaaaaaa") ∧
    docY.id = some "aaaaaaaaaaaaaaaaaaaaaaaa" := by decide

/-- Claim C9 (amended): the string-identifier interpretation is attempted
only when the identifier fails to parse as a native ObjectId; when it parses
but no entry has that native id, the core declares the entry unknown even if
an entry with that external string id exists in the store. -/
theorem c9_string_form_only_on_parse_failure (store : List WordDoc)
    (wid lang : String) (doc : WordDoc)
    (hv : isValidObjectId wid = true)
    (hn : ∀ d ∈ store, d.oid ≠ lowerHex wid)
    (_hd : doc ∈ store) (_hid : doc.id = some wid) :
    audioCore store wid lang = Except.error ⟨404, Reason.unknownEntry wid⟩ := by
  have hfind : store.find? (fun d => d.oid == lowerHex wid) = none :=
    List.find?_eq_none.mpr (fun d hdm => by simpa using hn d hdm)
  simp [audioCore, lookupWord, hv, hfind]

/-- Witness for C9 at the concrete store `[docY]`. -/
theorem c9_string_form_only_on_parse_failure_witness :
    audioCore [docY] "aaaaaaaaaaaaaaaaaaaaaaaa" "kibouchi" =
      Except.error ⟨404, Reason.unknownEntry "aaaaaaaaaaaaaaaaaaaaaaaa"⟩ :=
  c9_string_form_only_on_parse_failure [docY] "aaaaaaaaaaaaaaaaaaaaaaaa" "kibouchi"
    docY (by decide) (by intro d hd; simp at hd; subst hd; decide)
    (by simp) (by decide)

/-! ### Claim C2 -/

/-- Claim C2 as stated is false: `pool4` has 4 records with 4 distinct lead
tokens, so the selection of size 4 has diversity ratio 1 ≥ 0.5 and the claim
demands acceptance on the first attempt with at most 5 shuffles in total;
the code instead tests `unique_verbs < limit * 0.5` against the requested
target count 20 and exhausts all attempts, performing 6 shuffles. -/
theorem c2_ratio_counterexample :
    get_sentences_mix (fun _ => pool4) 20 = (some pool4, 6) ∧
    uniqueVerbs pool4 = some 4 ∧ pool4.length = 4 := by decide

/-- Claim C2 (amended): a selection is accepted exactly when twice its
distinct-lead-token count reaches `limit` (the requested target count, not
the selection size); otherwise the pool is reshuffled, for at most 6
shuffles in total (the initial shuffle plus up to 5 retries); the returned
selection is the last one computed, and it was either accepted by the
test or produced by the attempt-exhausting final shuffle. -/
theorem c2_sampler_semantics (orders : Nat → List SentenceRec) (limit : Nat) :
    (1 ≤ (get_sentences_mix orders limit).2 ∧ (get_sentences_mix orders limit).2 ≤ 6) ∧
    (∀ k, k + 1 < (get_sentences_mix orders limit).2 →
      ∃ u, uniqueVerbs (selAt orders limit k) = some u ∧ 2 * u < limit) ∧
    (∀ sel, (get_sentences_mix orders limit).1 = some sel →
      sel = selAt orders limit ((get_sentences_mix orders limit).2 - 1) ∧
      ∃ u, uniqueVerbs sel = some u ∧
        (2 * u < limit → (get_sentences_mix orders limit).2 = 6)) := by
  unfold get_sentences_mix
  have h := sampleLoop_spec orders limit 5 0
  norm_num at h
  exact ⟨h.1, fun k hk2 => h.2.1 k hk2, h.2.2⟩

/-- Witness for C2 at the concrete pool `pool4`. -/
theorem c2_sampler_semantics_witness :
    (get_sentences_mix (fun _ => pool4) 20).2 ≤ 6 ∧
    selAt (fun _ => pool4) 20 ((get_sentences_mix (fun _ => pool4) 20).2 - 1) = pool4 := by
  refine ⟨(c2_sampler_semantics (fun _ => pool4) 20).1.2, ?_⟩
  exact (((c2_sampler_semantics (fun _ => pool4) 20).2.2 pool4 (by decide)).1).symm

/-! ### Claim C6 -/

/-- Claim C6 as stated is false: on a pool containing a record whose French
field is the empty string, the first attempt raises (modelled by `none`):
the sampler does fail on such pools. -/
theorem c6_empty_french_counterexample :
    (get_sentences_mix (fun _ => [⟨""⟩]) 20).1 = none := by decide

/-- Claim C6 (amended): the sampler terminates within 6 shuffle attempts and
returns a selection without raising, provided every record reachable by a
shuffle has at least one whitespace-delimited token in its French field;
with an empty or whitespace-only French field in the selection it raises an
IndexError instead. -/
theorem c6_total_when_tokens_exist (orders : Nat → List SentenceRec) (limit : Nat)
    (h : ∀ i s, s ∈ orders i → (leadTok s.french).isSome) :
    ((get_sentences_mix orders limit).1).isSome ∧
    1 ≤ (get_sentences_mix orders limit).2 ∧ (get_sentences_mix orders limit).2 ≤ 6 := by
  unfold get_sentences_mix
  refine ⟨sampleLoop_isSome orders limit h 5 0, (sampleLoop_spec orders limit 5 0).1.1, ?_⟩
  have h2 := (sampleLoop_spec orders limit 5 0).1.2
  omega

/-- Witness for C6 at the concrete pool `pool4`. -/
theorem c6_total_when_tokens_exist_witness :
    ((get_sentences_mix (fun _ => pool4) 3).1).isSome = true :=
  (c6_total_when_tokens_exist (fun _ => pool4) 3 (by
    intro i s hs
    simp [pool4] at hs
    rcases hs with h | h | h | h <;> subst h <;> decide)).1

/-! ### Claim C8 -/

/-- Claim C8 as stated is false: on the empty pool with target count 20 the
code still performs 6 shuffle calls (the initial one plus all 5 retry
iterations, since `0 < 20 * 0.5`) before returning the empty selection. -/
theorem c8_shuffles_on_empty_counterexample :
    get_sentences_mix (fun _ => ([] : List SentenceRec)) 20 = (some [], 6) ∧
    (get_sentences_mix (fun _ => ([] : List SentenceRec)) 20).2 ≠ 0 := by decide

/-- Claim C8 (amended): on the empty pool with a positive target count the
sampler does return the empty selection, but only after the initial shuffle
and all five retry reshuffles (6 shuffle calls in total). -/
theorem c8_empty_pool (orders : Nat → List SentenceRec) (limit : Nat)
    (h : ∀ i, orders i = []) (hl : 0 < limit) :
    get_sentences_mix orders limit = (some [], 6) := by
  have hsel : ∀ k, selAt orders limit k = [] := by
    intro k; simp [selAt, h k]
  unfold get_sentences_mix
  simp [sampleLoop, hsel, uniqueVerbs, leadToks, hl]

/-- Witness for C8 on the empty pool with target count 7. -/
theorem c8_empty_pool_witness :
    get_sentences_mix (fun _ => ([] : List SentenceRec)) 7 = (some [], 6) :=
  c8_empty_pool (fun _ => []) 7 (fun _ => rfl) (by decide)

/-! ### Claim C4 -/

/-- Claim C4 as stated is false: a current-shape path value containing a
space is interpolated verbatim into the redirect URL; the filename component
is not percent-encoded when the resolved location came from a current-shape
`category/filename` path value. -/
theorem c4_slash_unencoded_counterexample :
    get_word_audio_by_language [doc3] "abcdefabcdefabcdefabcdef" "shimaore" =
      Resp.redirect 307 (R2_PUBLIC_URL ++ "/famille/mon fichier.m4a") ∧
    ' ' ∈ (R2_PUBLIC_URL ++ "/famille/mon fichier.m4a").data := by decide

/-- Claim C4 (amended): the URL builder is a pure function of its inputs; a
filename without an embedded slash is composed as
`base / category / encodedFilename` where every character of the encoded
filename is plain ASCII and not a space (spaces and accented characters are
percent-encoded); a path with an embedded slash (current shape) is
interpolated verbatim without encoding. -/
theorem c4_no_slash_encoding (base fn : String) (doc : WordDoc)
    (h : fn.data.contains '/' = false) :
    buildAudioUrl base fn doc = base ++ "/" ++ wordCategory doc ++ "/" ++ pyQuote fn ∧
    ∀ c ∈ (pyQuote fn).data, c.toNat < 128 ∧ c ≠ ' ' := by
  exact ⟨by unfold buildAudioUrl; rw [h]; simp, pyQuote_chars fn⟩

/-- Witness for C4 at a concrete filename containing a space. -/
theorem c4_no_slash_encoding_witness :
    buildAudioUrl "base" "mon fichier.m4a" doc1 =
      "base" ++ "/" ++ wordCategory doc1 ++ "/" ++ pyQuote "mon fichier.m4a" :=
  (c4_no_slash_encoding "base" "mon fichier.m4a" doc1 (by decide)).1

/-! ### Claim C5 -/

/-- Claim C5: the code raises `HTTPException(404)` for an unknown entry,
`HTTPException(400)` for a missing dual-audio system and `HTTPException(404)`
for a missing asset, but all three are raised inside the `try` block whose
catch-all `except Exception` re-raises them as status 500: only the
invalid-variant check (outside the `try`) actually surfaces as a 4xx.  The
intended statuses survive only inside the 500 detail string. -/
theorem c5_http_exceptions_remapped_to_500 :
    get_word_audio_by_language [] "mot1" "shimaore" =
      Resp.wrappedFailure 500 404 (Reason.unknownEntry "mot1") ∧
    get_word_audio_by_language [docNoDual] "cccccccccccccccccccccccc" "shimaore" =
      Resp.wrappedFailure 500 400 Reason.noDualSystem ∧
    get_word_audio_by_language [docDualNoAudio] "eeeeeeeeeeeeeeeeeeeeeeee" "shimaore" =
      Resp.wrappedFailure 500 404 (Reason.audioNotFound "shimaore") ∧
    get_word_audio_by_language [] "mot1" "english" =
      Resp.failure 400 Reason.invalidVariant := by decide

/-! ### Claim C10 -/

theorem frenchLe_trans : ∀ a b c : WordDoc, frenchLe a b → frenchLe b c → frenchLe a c := by
  intro a b c hab hbc
  simp only [frenchLe, decide_eq_true_eq] at *
  exact le_trans hab hbc

theorem frenchLe_total : ∀ a b : WordDoc, frenchLe a b || frenchLe b a := by
  intro a b
  simp only [frenchLe, Bool.or_eq_true, decide_eq_true_eq]
  exact le_total _ _

theorem get_words_nonempty_cat (store : List WordDoc) (c : String) (hc : c ≠ "") :
    get_words store (some c) =
      (store.filter (fun d => d.category == some c)).mergeSort frenchLe := by
  simp [get_words, hc]

/-- Claim C10 as stated is false for the category filter `""`: the empty
string is falsy in Python, so `if category:` drops the filter and the
listing returns entries of every category, not only those equal to the given
string. -/
theorem c10_empty_category_counterexample :
    get_words [w1] (some "") = [w1] ∧ w1.category ≠ some "" := by
  constructor
  · simp [get_words]
  · decide

/-- Claim C10 (amended): for every NON-EMPTY category string, every returned
item has exactly that category, the result is sorted ascending on the French
field, and — the endpoint taking no limit or skip and reporting the full
list — the number of returned items equals the size of the full
predicate-matched set. -/
theorem c10_words_listing (store : List WordDoc) (c : String) (hc : c ≠ "") :
    (∀ w ∈ get_words store (some c), w.category = some c) ∧
    List.Pairwise (fun a b : WordDoc => a.french ≤ b.french) (get_words store (some c)) ∧
    (get_words store (some c)).length =
      (store.filter (fun d => d.category == some c)).length := by
  rw [get_words_nonempty_cat store c hc]
  refine ⟨?_, ?_, ?_⟩
  · intro w hw
    have hw' : w ∈ store.filter (fun d => d.category == some c) :=
      (List.mergeSort_perm _ frenchLe).subset hw
    simpa using List.of_mem_filter hw'
  · exact (List.sorted_mergeSort frenchLe_trans frenchLe_total _).imp
      (fun h => by simpa [frenchLe] using h)
  · exact List.length_mergeSort _

/-- Witness for C10 at a concrete store of three words. -/
theorem c10_words_listing_witness :
    (get_words [w1, w2, w3] (some "colors")).length =
      ([w1, w2, w3].filter (fun d => d.category == some "colors")).length :=
  (c10_words_listing [w1, w2, w3] "colors" (by decide)).2.2

/-- Sanity check of the percent-encoder against `urllib.parse.quote`:
a space becomes `%20` and an accented character its UTF-8 escape pair. -/
theorem pyQuote_examples :
    pyQuote "mon fichier.m4a" = "mon%20fichier.m4a" ∧
    pyQuote "bébé.m4a" = "b%C3%A9b%C3%A9.m4a" := by decide

end Kwezi
